import Mathlib

/-!
# Verification of the `motdyn` MOTD generator

A shallow embedding of the pure computational core of `src/main.rs`:
uptime formatting, memory/swap ratio computation, byte-scale unit
selection, configuration merging, OS-identity fallback parsing, CPU-info
parsing, logged-in-user-count parsing, farewell rendering, and the
report renderer itself.  File reads, environment variables and the one
subprocess invocation are modelled as explicit `Option String` inputs
(`none` = unreadable/unset); `f64` arithmetic is modelled over `ℚ`
(the divisions by powers of 1024 that occur are exact in binary floating
point, and the unit thresholds compared against are all below 2^53, so
the `u64 → f64` conversions are exact where it matters).
-/

namespace Motdyn

/-! ## Character-list string utilities

Small structural-recursion helpers mirroring the Rust `str` methods the
program uses (`trim`, `lines`, `split`, `find`, `split_whitespace`,
`strip_prefix`), kept kernel-reducible. -/

/-- Rust `char::is_whitespace`, restricted to the ASCII whitespace that
occurs in the files the program parses. -/
def isWs (c : Char) : Bool :=
  c = ' ' || c = '\t' || c = '\n' || c = '\r'

/-- Rust `trim` on a character list: drop whitespace from both ends. -/
def listTrim (l : List Char) : List Char :=
  ((l.dropWhile isWs).reverse.dropWhile isWs).reverse

/-- Rust `str::trim`. -/
def trimStr (s : String) : String :=
  String.mk (listTrim s.data)

/-- Does the first list occur at the head of the second? -/
def listLeads : List Char → List Char → Bool
  | [], _ => true
  | _ :: _, [] => false
  | c :: cs, d :: ds => c = d && listLeads cs ds

/-- First index (in characters) at which `needle` occurs in `hay`,
mirroring Rust `str::find` on ASCII input. -/
def listFindSub (needle : List Char) : List Char → Option Nat
  | [] => if needle = [] then some 0 else none
  | c :: cs =>
      if listLeads needle (c :: cs) then some 0
      else (listFindSub needle cs).map (· + 1)

/-- Rust `str::find(needle)` (character positions; identical to byte
positions on the ASCII data involved). -/
def findSub (hay needle : String) : Option Nat :=
  listFindSub needle.data hay.data

/-- Split a character list at every character satisfying `p`; always
returns at least one (possibly empty) segment. -/
def listSplitP (p : Char → Bool) : List Char → List (List Char)
  | [] => [[]]
  | c :: cs =>
      let r := listSplitP p cs
      if p c then [] :: r
      else
        match r with
        | [] => [[c]]
        | x :: xs => (c :: x) :: xs

/-- Rust `str::split(sep)` for a single-character separator. -/
def splitChar (sep : Char) (s : String) : List String :=
  (listSplitP (· = sep) s.data).map String.mk

/-- Rust `str::lines`: split on `'\n'`, drop a final empty segment
produced by a trailing newline, strip a trailing `'\r'` from each line. -/
def rustLines (s : String) : List String :=
  let parts := listSplitP (· = '\n') s.data
  let parts := if parts.getLast? = some [] then parts.dropLast else parts
  parts.map fun l =>
    String.mk (match l.reverse with
               | '\r' :: rest => rest.reverse
               | _ => l)

/-- Rust `str::split_whitespace`: whitespace-separated tokens, empties
dropped. -/
def splitWs (s : String) : List String :=
  ((listSplitP isWs s.data).filter (· ≠ [])).map String.mk

/-- Rust `str::starts_with(p)`. -/
def startsW (s p : String) : Bool :=
  listLeads p.data s.data

/-- Rust `str::strip_prefix(p)`: the remainder after `p`, when `s`
starts with `p`. -/
def stripPre (s p : String) : Option String :=
  if startsW s p then some (String.mk (s.data.drop p.data.length)) else none

/-- Rust `usize::from_str`: optional leading `'+'`, then one or more
ASCII digits. -/
def parseUsize (s : String) : Option Nat :=
  let t := match s.data with
           | '+' :: rest => rest
           | l => l
  if t ≠ [] ∧ t.all (·.isDigit) then
    some (t.foldl (fun acc c => acc * 10 + (c.toNat - 48)) 0)
  else none

/-! ## Uptime formatting (`format_uptime`, src/main.rs:335) -/

/-- Rust `format!("{:02}", n)` for an unsigned integer. -/
def pad2 (n : Nat) : String :=
  if n < 10 then "0" ++ toString n else toString n

/-- Model of `format_uptime`: decompose seconds into days/hours/minutes/seconds
and render `"D days, HH:MM:SS"` (or `"HH:MM:SS"` when `days = 0`). -/
def format_uptime (secs : Nat) : String :=
  let days := secs / 86400
  let secs1 := secs % 86400
  let hours := secs1 / 3600
  let secs2 := secs1 % 3600
  let minutes := secs2 / 60
  let secs3 := secs2 % 60
  if days > 0 then
    toString days ++ " days, " ++ pad2 hours ++ ":" ++ pad2 minutes ++ ":" ++ pad2 secs3
  else
    pad2 hours ++ ":" ++ pad2 minutes ++ ":" ++ pad2 secs3

/-- Spec-side description of the uptime format (§4.1 of the spec), with
its own left-padding, for comparison with `format_uptime`. -/
def uptimeSpec (s : Nat) : String :=
  let d := s / 86400
  let h := s % 86400 / 3600
  let m := s % 86400 % 3600 / 60
  let sec := s % 86400 % 3600 % 60
  let z : Nat → String := fun n =>
    if (toString n).length < 2 then "0" ++ toString n else toString n
  if d > 0 then
    toString d ++ " days, " ++ z h ++ ":" ++ z m ++ ":" ++ z sec
  else
    z h ++ ":" ++ z m ++ ":" ++ z sec

/-! ## Memory/swap ratio (`to_gb_and_ratio`, `kb_to_gb`, src/main.rs:503) -/

/-- Model of `kb_to_gb`: kilobytes to gigabytes.  Exact in `f64` (division by a
power of two), modelled over `ℚ`. -/
def kb_to_gb (kb : Nat) : ℚ :=
  (kb : ℚ) / 1024 / 1024

/-- Model of `to_gb_and_ratio`: `(used_gb, total_gb, percent_used)` from total and
free kilobyte counts.  `Nat` subtraction is Rust's `saturating_sub`. -/
def to_gb_and_ratio (total_kb free_kb : Nat) : ℚ × ℚ × ℚ :=
  let used_kb := total_kb - free_kb
  let total_gb := kb_to_gb total_kb
  let used_gb := kb_to_gb used_kb
  let ratio := if total_gb > 0 then used_gb / total_gb * 100 else 0
  (used_gb, total_gb, ratio)

/-! ## Configuration merge (`merge_config`, src/main.rs:183) -/

/-- Model of `MotdConfig`: the merged configuration (banner art and farewell). -/
structure MotdConfig where
  ascii_art : Option String
  farewell : Option String
deriving DecidableEq, Repr

/-- Model of `MotdConfig::default()`: both fields absent. -/
def MotdConfig.default : MotdConfig := ⟨none, none⟩

/-- Model of `merge_config`: start from the system config (or default), then let
each user-layer field that is present overwrite. -/
def merge_config (sys_cfg usr_cfg : Option MotdConfig) : MotdConfig :=
  let final0 := sys_cfg.getD MotdConfig.default
  match usr_cfg with
  | none => final0
  | some u =>
      let final1 := match u.ascii_art with
                    | some art => { final0 with ascii_art := some art }
                    | none => final0
      match u.farewell with
      | some fw => { final1 with farewell := some fw }
      | none => final1

/-! ## OS identity (`get_os_info`, `parse_redhat_release`,
`parse_os_release`, `read_first_line`, src/main.rs:351-471)

File contents are explicit `Option String` inputs (`none` = the file
could not be read). -/

/-- Model of `read_first_line`: first line of the file, trimmed; `none` when the
file is unreadable or empty. -/
def read_first_line (content : Option String) : Option String :=
  content.bind fun c =>
    if c.data = [] then none
    else some (trimStr (String.mk (c.data.takeWhile (· ≠ '\n'))))

/-- Model of `parse_redhat_release`: trim the file, split at the first
`" release "`; name before, version after. -/
def parse_redhat_release (content : Option String) : Option (String × String) :=
  content.bind fun c =>
    let line := trimStr c
    let needle := " release "
    (findSub line needle).map fun pos =>
      (String.mk (line.data.take pos),
       String.mk (line.data.drop (pos + needle.data.length)))

/-- Rust `str::trim_matches('"')`: strip all leading and trailing double
quotes. -/
def trimQuotes (s : String) : String :=
  String.mk (((s.data.dropWhile (· = '"')).reverse.dropWhile (· = '"')).reverse)

/-- Model of `parse_os_release`: scan `KEY=VALUE` lines for `NAME` and
`VERSION_ID`; succeeds only when both are present (last occurrence of
each wins, as in the source's loop). -/
def parse_os_release (content : Option String) : Option (String × String) :=
  content.bind fun c =>
    let step := fun (acc : Option String × Option String) (line : String) =>
      match stripPre line "NAME=" with
      | some stripped => (some (trimQuotes (trimStr stripped)), acc.2)
      | none =>
          match stripPre line "VERSION_ID=" with
          | some stripped => (acc.1, some (trimQuotes (trimStr stripped)))
          | none => acc
    match (rustLines c).foldl step (none, none) with
    | (some n, some v) => some (n, v)
    | _ => none

/-- Model of `get_os_info`: redhat-release file, then os-release file, then the
`("Linux", ostype-or-"Linux")` fallback. -/
def get_os_info (redhat osrel ostype : Option String) : String × String :=
  match parse_redhat_release redhat with
  | some r => r
  | none =>
      match parse_os_release osrel with
      | some r => r
      | none => ("Linux", (read_first_line ostype).getD "Linux")

/-! ## CPU info (`parse_cpuinfo`, src/main.rs:438) -/

/-- One iteration of `parse_cpuinfo`'s line loop over the accumulator
`(brand, core_count)`. -/
def cpuStep (acc : String × Nat) (line : String) : String × Nat :=
  if startsW line "processor" then (acc.1, acc.2 + 1)
  else
    match stripPre line "model name" with
    | some model_str =>
        match (splitChar ':' model_str).get? 1 with
        | some v => if acc.1 = "Unknown CPU" then (trimStr v, acc.2) else acc
        | none => acc
    | none => acc

/-- Model of `parse_cpuinfo`: `(brand, core_count)`; defaults
`("Unknown CPU", 0)` when `/proc/cpuinfo` is unreadable. -/
def parse_cpuinfo (content : Option String) : String × Nat :=
  match content with
  | none => ("Unknown CPU", 0)
  | some c => (rustLines c).foldl cpuStep ("Unknown CPU", 0)

/-- The `model name` value a line contributes, if any: the segment
between the first and second `':'` after the `"model name"` key,
trimmed.  Lines beginning with `"processor"` take the core-count branch
instead and contribute no value. -/
def cpuLineValue (line : String) : Option String :=
  if startsW line "processor" then none
  else
    (stripPre line "model name").bind fun rest =>
      ((splitChar ':' rest).get? 1).map trimStr

/-- Spec-side reading of C6: the brand is the value of the *first*
`model name` line encountered. -/
def cpuFirstModelValue (content : String) : Option String :=
  ((rustLines content).filterMap cpuLineValue).head?

/-- Amended brand: the first `model name` value *distinct from the
sentinel `"Unknown CPU"`* (a value equal to the sentinel leaves the
brand unchanged, so later lines may still set it). -/
def cpuAmendedBrand (content : String) : String :=
  (((rustLines content).filterMap cpuLineValue).find?
      (fun v => !(v = "Unknown CPU"))).getD "Unknown CPU"

/-- Spec-side core count: the number of lines beginning with
`"processor"`. -/
def cpuProcCount (content : String) : Nat :=
  ((rustLines content).filter (fun l => startsW l "processor")).length

/-! ## Memory info (`parse_meminfo`, `fallback_mem_free`,
src/main.rs:393-435) -/

/-- Model of `fallback_mem_free`: value of the first `MemFree:` line. -/
def fallback_mem_free (content : Option String) : Option Nat :=
  content.bind fun c =>
    ((rustLines c).findSome? fun line => stripPre line "MemFree:").bind
      fun stripped =>
        ((splitWs (trimStr stripped)).get? 0).bind parseUsize

/-- Model of `parse_meminfo`:
`(mem_total_kb, mem_free_kb, swap_total_kb, swap_free_kb)`, all
defaulting to 0, with the `MemFree:` fallback when `MemAvailable` is
absent or zero. -/
def parse_meminfo (content : Option String) : Nat × Nat × Nat × Nat :=
  match content with
  | none => (0, 0, 0, 0)
  | some c =>
      let step := fun (acc : Nat × Nat × Nat × Nat) (line : String) =>
        let parts := splitWs line
        match parts.get? 0, parts.get? 1 with
        | some k, some v =>
            if k = "MemTotal:" then ((parseUsize v).getD 0, acc.2.1, acc.2.2.1, acc.2.2.2)
            else if k = "MemAvailable:" then (acc.1, (parseUsize v).getD 0, acc.2.2.1, acc.2.2.2)
            else if k = "SwapTotal:" then (acc.1, acc.2.1, (parseUsize v).getD 0, acc.2.2.2)
            else if k = "SwapFree:" then (acc.1, acc.2.1, acc.2.2.1, (parseUsize v).getD 0)
            else acc
        | _, _ => acc
      let r := (rustLines c).foldl step (0, 0, 0, 0)
      if r.2.1 = 0 then (r.1, (fallback_mem_free content).getD 0, r.2.2.1, r.2.2.2)
      else r

/-! ## Logged-in users (`get_logged_in_user_count`, src/main.rs:488) -/

/-- Model of `get_logged_in_user_count`: the integer after the first `"# users="`
marker in the `who -q` output; 0 on any failure (`none` = the subprocess
could not be run). -/
def get_logged_in_user_count (whoOut : Option String) : Nat :=
  match whoOut with
  | none => 0
  | some out =>
      match (rustLines out).findSome?
          (fun line => (findSub line "# users=").map fun pos => (line, pos)) with
      | some (line, pos) =>
          (parseUsize (trimStr (String.mk (line.data.drop (pos + 8))))).getD 0
      | none => 0

/-! ## Current user (`get_current_user_and_ip`, src/main.rs:474) -/

/-- Model of `get_current_user_and_ip`: `USER` then `LOGNAME` then `"unknown"`;
origin is the first whitespace token of `SSH_CONNECTION`. -/
def get_current_user_and_ip (envUSER envLOGNAME envSSH : Option String) :
    String × String :=
  let user := (envUSER.orElse fun _ => envLOGNAME).getD "unknown"
  let ssh_connection := envSSH.getD ""
  let from_ip := ((splitWs ssh_connection).get? 0).getD "unknown"
  (user, from_ip)

/-! ## Byte-scale selection (`best_unit_scale`, `human_readable_usage`,
src/main.rs:597-636)

The source compares `max(used, total) as f64` against `f64` constants
`1024.0^k`, `k ≤ 5`.  Every threshold is at most `2^50 < 2^53`, so the
`u64 → f64` conversion is exact below `2^53` and any value rounded by
the conversion is far above every threshold; the comparisons are
therefore exactly the `Nat` comparisons used here. -/

/-- Model of `best_unit_scale`: largest 1024-power threshold that the value
reaches, with its suffix; `(1, "B")` below 1 KiB. -/
def best_unit_scale (bytes : Nat) : Nat × String :=
  let kib := 1024
  let mib := 1024 * 1024
  let gib := 1024 * 1024 * 1024
  let tib := 1024 * 1024 * 1024 * 1024
  let pib := 1024 * 1024 * 1024 * 1024 * 1024
  if bytes ≥ pib then (pib, "PB")
  else if bytes ≥ tib then (tib, "TB")
  else if bytes ≥ gib then (gib, "GB")
  else if bytes ≥ mib then (mib, "MB")
  else if bytes ≥ kib then (kib, "KB")
  else (1, "B")

/-- The display unit belonging to `1024 ^ n`. -/
def unit_name : Nat → String
  | 0 => "B"
  | 1 => "KB"
  | 2 => "MB"
  | 3 => "GB"
  | 4 => "TB"
  | _ => "PB"

/-- Rust `format!("{:.2}", x)` for a non-negative rational: two decimal
places, rounding half up. -/
def fmt2 (q : ℚ) : String :=
  let c : Int := (2 * q.num * 100 + (q.den : Int)) / (2 * (q.den : Int))
  let n := c.toNat
  toString (n / 100) ++ "." ++ pad2 (n % 100)

/-- Model of `human_readable_usage`: used and total rendered in the single unit
chosen by `best_unit_scale (max used total)`, plus the usage ratio. -/
def human_readable_usage (used total : Nat) : String × String × ℚ :=
  let bigger := max used total
  let s := best_unit_scale bigger
  let used_f : ℚ := (used : ℚ) / (s.1 : ℚ)
  let total_f : ℚ := (total : ℚ) / (s.1 : ℚ)
  let ratio := if total_f > 0 then used_f / total_f * 100 else 0
  (fmt2 used_f ++ " " ++ s.2, fmt2 total_f ++ " " ++ s.2, ratio)

/-! ## Report rendering (`print_motdyn`, `run_motd`, `print_aligned`,
`parse_uptime`, disk usage, src/main.rs:160-331, 521-612)

The report is modelled as the list of payloads handed to `println!`, in
order.  ANSI styling from the `colored` crate is modelled by the
wrapper functions below (always-colored; the claim settled over this
model does not depend on the escape codes). -/

/-- ANSI escape wrapper, as emitted by the `colored` crate. -/
def ansi (code s : String) : String :=
  "\x1b[" ++ code ++ "m" ++ s ++ "\x1b[0m"

/-- Color wrapper `.bright_yellow()`. -/
def bright_yellow (s : String) : String := ansi "93" s

/-- Color wrapper `.bright_green()`. -/
def bright_green (s : String) : String := ansi "92" s

/-- Color wrapper `.bright_magenta()`. -/
def bright_magenta (s : String) : String := ansi "95" s

/-- Color wrapper `.bright_cyan()`. -/
def bright_cyan (s : String) : String := ansi "96" s

/-- Color wrapper `.bright_white()`. -/
def bright_white (s : String) : String := ansi "97" s

/-- Color wrapper `.bold().cyan()`. -/
def boldCyan (s : String) : String := ansi "1;36" s

/-- Rust `format!("{:width$}", s)`: pad on the right with spaces up to
`width` (no-op when `s` is already at least that long). -/
def padKey (s : String) (width : Nat) : String :=
  s ++ String.mk (List.replicate (width - s.data.length) ' ')

/-- Model of `print_aligned`: each `(key, value)` rendered as the bright-white
key padded to the longest key length, a space, and the value. -/
def print_aligned (items : List (String × String)) : List String :=
  let max_key_len := (items.map fun kv => kv.1.data.length).foldr max 0
  items.map fun kv => padKey (bright_white kv.1) max_key_len ++ " " ++ kv.2

/-- Model of `tok.parse::<f64>()` followed by `as u64` for the plain
non-negative decimal tokens found in `/proc/uptime` (no exponent, no
sign): the integer part of the literal. -/
def parseFloatSecs (s : String) : Option Nat :=
  match splitChar '.' s with
  | [i] => parseUsize i
  | [i, f] =>
      if f.data.all (·.isDigit) then
        if i = "" then (if f = "" then none else some 0) else parseUsize i
      else none
  | _ => none

/-- Model of `parse_uptime`: first whitespace token of `/proc/uptime`, parsed and
truncated to whole seconds, formatted by `format_uptime`. -/
def parse_uptime (content : Option String) : Option String :=
  content.bind fun line =>
    ((splitWs line).get? 0).bind fun tok =>
      (parseFloatSecs tok).map format_uptime

/-- The rendered farewell: the configured value when present and
non-blank after trimming, else the fixed default. -/
def render_farewell (cfg : MotdConfig) : String :=
  match cfg.farewell with
  | some s => if trimStr s = "" then "Have a nice day!" else s
  | none => "Have a nice day!"

/-- All system inputs `print_motdyn` consumes besides the clock: file
contents (`none` = unreadable), environment variables (`none` = unset),
the `who -q` stdout (`none` = spawn failure), and the per-mount-point
result of `get_mount_usage` (`(total_bytes, used_bytes)`, `none` =
`statvfs` failure). -/
structure SysState where
  redhatRelease : Option String
  osRelease : Option String
  ostypeFile : Option String
  uptimeFile : Option String
  kernelOsrelease : Option String
  hostnameFile : Option String
  cpuinfoFile : Option String
  meminfoFile : Option String
  envUSER : Option String
  envLOGNAME : Option String
  envSSH : Option String
  whoOutput : Option String
  mountsFile : Option String
  mountUsage : String → Option (Nat × Nat)

/-- Model of `print_disk_usage`: the usage line for one mount point, or `none`
when the `statvfs` query fails (the line is silently skipped). -/
def print_disk_usage (st : SysState) (mount_path label : String) : Option String :=
  (st.mountUsage mount_path).map fun tu =>
    let h := human_readable_usage tu.2 tu.1
    bright_white label ++ " " ++ bright_yellow mount_path ++ " => " ++
      h.1 ++ "/" ++ h.2.1 ++ " (" ++ fmt2 h.2.2 ++ "%)"

/-- Model of `parse_and_print_disk_usage`: one usage line per mount-table entry
whose mount point is `/` or whose filesystem type is an NFS variant, in
mount-table order (a read failure of the mount table prints only to the
error stream and contributes no report lines). -/
def disk_usage_lines (st : SysState) : List String :=
  match st.mountsFile with
  | none => []
  | some c =>
      (rustLines c).filterMap fun line =>
        let fields := splitWs line
        match fields.get? 1, fields.get? 2 with
        | some mount_path, some fstype =>
            if mount_path = "/" then
              print_disk_usage st mount_path "Disk usage (root):"
            else if fstype = "nfs" ∨ fstype = "nfs4" then
              print_disk_usage st mount_path "Disk usage (NFS):"
            else none
        | _, _ => none

/-- Model of `print_motdyn`: the full report, as the ordered list of `println!`
payloads, parameterised by the formatted current time `nowStr`. -/
def print_motdyn (verbose : Bool) (cfg : MotdConfig) (st : SysState)
    (nowStr : String) : List String :=
  let banner := match cfg.ascii_art with
                | some art => ["", art, ""]
                | none => []
  let osInfo := get_os_info st.redhatRelease st.osRelease st.ostypeFile
  let uptime_str := (parse_uptime st.uptimeFile).getD "unknown"
  let kernel_version := (read_first_line st.kernelOsrelease).getD "Unknown kernel"
  let host_name := (read_first_line st.hostnameFile).getD "Unknown host"
  let cpu := parse_cpuinfo st.cpuinfoFile
  let mem := parse_meminfo st.meminfoFile
  let m := to_gb_and_ratio mem.1 mem.2.1
  let sw := to_gb_and_ratio mem.2.2.1 mem.2.2.2
  let userIp := get_current_user_and_ip st.envUSER st.envLOGNAME st.envSSH
  let login_user_count := get_logged_in_user_count st.whoOutput
  let items : List (String × String) := [
    ("Current time (TZ):", bright_yellow nowStr),
    ("System uptime:", bright_yellow uptime_str),
    ("Operating system:", bright_yellow (osInfo.1 ++ " " ++ osInfo.2)),
    ("Kernel version:", bright_green kernel_version),
    ("Host name:", bright_yellow host_name),
    ("CPU:", bright_magenta cpu.1 ++ " (" ++ bright_magenta (toString cpu.2) ++ " cores)"),
    ("Memory used/total:", fmt2 m.1 ++ "/" ++ fmt2 m.2.1 ++ " GB (" ++ fmt2 m.2.2 ++ "%)"),
    ("Swap used/total:", fmt2 sw.1 ++ "/" ++ fmt2 sw.2.1 ++ " GB (" ++ fmt2 sw.2.2 ++ "%)"),
    ("Current user:", bright_cyan userIp.1 ++ " (from " ++ bright_cyan userIp.2 ++ ")"),
    ("Login user count:", bright_cyan (toString login_user_count))]
  banner ++ [boldCyan "Welcome!", ""] ++ print_aligned items
    ++ disk_usage_lines st
    ++ (if verbose then [boldCyan "Verbose mode: put extra info here."] else [])
    ++ ["", boldCyan (render_farewell cfg)]

/-- Model of `run_motd`: merge the two configuration layers, then print. -/
def run_motd (verbose : Bool) (sys_cfg usr_cfg : Option MotdConfig)
    (st : SysState) (nowStr : String) : List String :=
  print_motdyn verbose (merge_config sys_cfg usr_cfg) st nowStr

/-- The one report line that shows the clock: the aligned
`"Current time (TZ):"` entry (the longest key is 18 characters wide). -/
def time_line (nowStr : String) : String :=
  padKey (bright_white "Current time (TZ):") 18 ++ " " ++ bright_yellow nowStr

/-- Every report line other than the time line, in order, after the
banner/"Welcome!" prelude: the nine remaining aligned facts, the disk
usage lines, the optional verbose line, and the farewell block.  None of
them mentions the clock. -/
def report_rest (verbose : Bool) (cfg : MotdConfig) (st : SysState) : List String :=
  let osInfo := get_os_info st.redhatRelease st.osRelease st.ostypeFile
  let uptime_str := (parse_uptime st.uptimeFile).getD "unknown"
  let kernel_version := (read_first_line st.kernelOsrelease).getD "Unknown kernel"
  let host_name := (read_first_line st.hostnameFile).getD "Unknown host"
  let cpu := parse_cpuinfo st.cpuinfoFile
  let mem := parse_meminfo st.meminfoFile
  let m := to_gb_and_ratio mem.1 mem.2.1
  let sw := to_gb_and_ratio mem.2.2.1 mem.2.2.2
  let userIp := get_current_user_and_ip st.envUSER st.envLOGNAME st.envSSH
  let login_user_count := get_logged_in_user_count st.whoOutput
  [padKey (bright_white "System uptime:") 18 ++ " " ++ bright_yellow uptime_str,
   padKey (bright_white "Operating system:") 18 ++ " " ++ bright_yellow (osInfo.1 ++ " " ++ osInfo.2),
   padKey (bright_white "Kernel version:") 18 ++ " " ++ bright_green kernel_version,
   padKey (bright_white "Host name:") 18 ++ " " ++ bright_yellow host_name,
   padKey (bright_white "CPU:") 18 ++ " " ++
     (bright_magenta cpu.1 ++ " (" ++ bright_magenta (toString cpu.2) ++ " cores)"),
   padKey (bright_white "Memory used/total:") 18 ++ " " ++
     (fmt2 m.1 ++ "/" ++ fmt2 m.2.1 ++ " GB (" ++ fmt2 m.2.2 ++ "%)"),
   padKey (bright_white "Swap used/total:") 18 ++ " " ++
     (fmt2 sw.1 ++ "/" ++ fmt2 sw.2.1 ++ " GB (" ++ fmt2 sw.2.2 ++ "%)"),
   padKey (bright_white "Current user:") 18 ++ " " ++
     (bright_cyan userIp.1 ++ " (from " ++ bright_cyan userIp.2 ++ ")"),
   padKey (bright_white "Login user count:") 18 ++ " " ++
     bright_cyan (toString login_user_count)]
    ++ disk_usage_lines st
    ++ (if verbose then [boldCyan "Verbose mode: put extra info here."] else [])
    ++ ["", boldCyan (render_farewell cfg)]

/-! ## Claim theorems -/

/-- C1: `format_uptime` decomposes seconds into days/hours/minutes/
seconds by division/modulo by 86400, 3600, 60 and renders
`"D days, HH:MM:SS"` when days > 0, else `"HH:MM:SS"`, zero-padded to
two digits; `0 ↦ "00:00:00"` and `90061 ↦ "1 days, 01:01:01"`. -/
theorem format_uptime_matches_spec :
    (∀ s : Nat, format_uptime s = uptimeSpec s) ∧
    format_uptime 0 = "00:00:00" ∧
    format_uptime 90061 = "1 days, 01:01:01" := by
  have key : ∀ k, k < 60 →
      pad2 k = if (toString k).length < 2 then "0" ++ toString k else toString k := by
    decide
  refine ⟨fun s => ?_, by decide, by decide⟩
  simp only [format_uptime, uptimeSpec]
  rw [key (s % 86400 / 3600) (by omega), key (s % 86400 % 3600 / 60) (by omega),
      key (s % 86400 % 3600 % 60) (by omega)]

/-- C2: `to_gb_and_ratio` computes `used` by saturating subtraction
(never negative), reports percent-used 0 whenever the total is 0, and
agrees with the spec's two worked examples exactly. -/
theorem to_gb_and_ratio_matches_spec :
    (∀ total free : Nat,
        (to_gb_and_ratio total free).1 = kb_to_gb (total - free) ∧
        ((total - free : Nat) : ℤ) = max 0 ((total : ℤ) - (free : ℤ)) ∧
        (total = 0 → (to_gb_and_ratio total free).2.2 = 0)) ∧
    to_gb_and_ratio 0 0 = (0, 0, 0) ∧
    to_gb_and_ratio 2097152 1048576 = (1, 2, 50) := by
  refine ⟨fun total free => ⟨rfl, by omega, fun h => ?_⟩,
    by norm_num [to_gb_and_ratio, kb_to_gb],
    by norm_num [to_gb_and_ratio, kb_to_gb]⟩
  subst h
  norm_num [to_gb_and_ratio, kb_to_gb]

/-- C2 witness: the hypotheses of the quantified part discharged at
concrete inputs. -/
theorem to_gb_and_ratio_matches_spec_witness :
    ((5 - 9 : Nat) : ℤ) = max 0 ((5 : ℤ) - (9 : ℤ)) ∧
    (to_gb_and_ratio 0 7).2.2 = 0 :=
  ⟨(to_gb_and_ratio_matches_spec.1 5 9).2.1,
   (to_gb_and_ratio_matches_spec.1 0 7).2.2 rfl⟩

/-- C4: `merge_config` starts from the system layer (or the all-empty
default) and overwrites each field exactly when the user layer and that
field are present; includes the spec's worked examples. -/
theorem merge_config_matches_spec :
    (∀ sc uc : MotdConfig,
        merge_config (some sc) (some uc) =
          ⟨match uc.ascii_art with | some a => some a | none => sc.ascii_art,
           match uc.farewell with | some f => some f | none => sc.farewell⟩) ∧
    (∀ sc : MotdConfig, merge_config (some sc) none = sc) ∧
    (∀ uc : MotdConfig, merge_config none (some uc) = uc) ∧
    merge_config none none = ⟨none, none⟩ ∧
    merge_config (some ⟨some "A", none⟩) (some ⟨none, some "Bye"⟩) =
      ⟨some "A", some "Bye"⟩ := by
  refine ⟨fun sc uc => ?_, fun sc => rfl, fun uc => ?_, rfl, rfl⟩
  · obtain ⟨a, f⟩ := uc
    cases a <;> cases f <;> rfl
  · obtain ⟨a, f⟩ := uc
    cases a <;> cases f <;> rfl

/-- C10: the outputs of `to_gb_and_ratio` always satisfy
`0 ≤ used_gb ≤ total_gb` and `0 ≤ ratio ≤ 100`, even when the available
count exceeds the total. -/
theorem to_gb_and_ratio_bounds : ∀ total free : Nat,
    0 ≤ (to_gb_and_ratio total free).1 ∧
    (to_gb_and_ratio total free).1 ≤ (to_gb_and_ratio total free).2.1 ∧
    0 ≤ (to_gb_and_ratio total free).2.2 ∧
    (to_gb_and_ratio total free).2.2 ≤ 100 := by
  intro total free
  have hle : ((total - free : Nat) : ℚ) / 1024 / 1024 ≤ (total : ℚ) / 1024 / 1024 := by
    gcongr
    exact_mod_cast Nat.sub_le total free
  simp only [to_gb_and_ratio, kb_to_gb]
  refine ⟨by positivity, hle, ?_, ?_⟩
  · split_ifs with h
    · positivity
    · exact le_refl _
  · split_ifs with h
    · have h1 : ((total - free : Nat) : ℚ) / 1024 / 1024 / ((total : ℚ) / 1024 / 1024) ≤ 1 :=
        div_le_one_of_le₀ hle (le_of_lt h)
      linarith
    · norm_num

/-- C3: `best_unit_scale` picks the largest power-of-1024 threshold
(≤ 1024⁵) that is ≤ the value, with raw bytes below 1 KiB; an exact
power 1024ⁿ selects its own unit; `human_readable_usage` renders used
and total in that one unit chosen from `max used total`. -/
theorem best_unit_scale_matches_spec :
    (∀ b : Nat, ∃ k, k ≤ 5 ∧ (best_unit_scale b).1 = 1024 ^ k ∧
        (k = 0 ∨ 1024 ^ k ≤ b) ∧ (∀ j, j ≤ 5 → 1024 ^ j ≤ b → j ≤ k)) ∧
    (best_unit_scale 500).2 = "B" ∧
    (best_unit_scale 2048).2 = "KB" ∧
    (best_unit_scale (5 * 1024 * 1024)).2 = "MB" ∧
    (∀ n, n ≤ 5 → best_unit_scale (1024 ^ n) = (1024 ^ n, unit_name n)) ∧
    (∀ used total : Nat, ∃ u t : String,
        (human_readable_usage used total).1 =
          u ++ " " ++ (best_unit_scale (max used total)).2 ∧
        (human_readable_usage used total).2.1 =
          t ++ " " ++ (best_unit_scale (max used total)).2) := by
  refine ⟨fun b => ?_, by decide, by decide, by decide, fun n hn => ?_,
    fun used total => ⟨_, _, rfl, rfl⟩⟩
  · simp only [best_unit_scale]
    split_ifs with h1 h2 h3 h4 h5
    · exact ⟨5, by norm_num, by norm_num,
        Or.inr (by norm_num at h1 ⊢; omega),
        fun j hj hb => by omega⟩
    · refine ⟨4, by norm_num, by norm_num,
        Or.inr (by norm_num at h2 ⊢; omega), fun j hj hb => ?_⟩
      interval_cases j <;> norm_num at hb ⊢ <;> omega
    · refine ⟨3, by norm_num, by norm_num,
        Or.inr (by norm_num at h3 ⊢; omega), fun j hj hb => ?_⟩
      interval_cases j <;> norm_num at hb ⊢ <;> omega
    · refine ⟨2, by norm_num, by norm_num,
        Or.inr (by norm_num at h4 ⊢; omega), fun j hj hb => ?_⟩
      interval_cases j <;> norm_num at hb ⊢ <;> omega
    · refine ⟨1, by norm_num, by norm_num,
        Or.inr (by norm_num at h5 ⊢; omega), fun j hj hb => ?_⟩
      interval_cases j <;> norm_num at hb ⊢ <;> omega
    · refine ⟨0, by norm_num, by norm_num, Or.inl rfl, fun j hj hb => ?_⟩
      interval_cases j <;> norm_num at hb ⊢ <;> omega
  · interval_cases n <;> decide

/-- C3 witness: the boundary clause applied at `n = 3`. -/
theorem best_unit_scale_matches_spec_witness :
    best_unit_scale (1024 ^ 3) = (1024 ^ 3, unit_name 3) :=
  best_unit_scale_matches_spec.2.2.2.2.1 3 (by norm_num)

/-- C5: `get_os_info` tries the redhat-release file, then the os-release
file, then the `("Linux", ostype)` fallback, and only the first
successful strategy's result is used; a redhat-release-style file takes
priority over any os-release file. -/
theorem get_os_info_matches_spec :
    (∀ (rh osrel ot : Option String) (r : String × String),
        parse_redhat_release rh = some r → get_os_info rh osrel ot = r) ∧
    (∀ (rh osrel ot : Option String) (r : String × String),
        parse_redhat_release rh = none → parse_os_release osrel = some r →
          get_os_info rh osrel ot = r) ∧
    (∀ rh osrel ot : Option String,
        parse_redhat_release rh = none → parse_os_release osrel = none →
          get_os_info rh osrel ot = ("Linux", (read_first_line ot).getD "Linux")) ∧
    parse_redhat_release (some "CentOS Linux release 7.9.2009 (Core)") =
      some ("CentOS Linux", "7.9.2009 (Core)") ∧
    (∀ osrel ot : Option String,
        get_os_info (some "CentOS Linux release 7.9.2009 (Core)") osrel ot =
          ("CentOS Linux", "7.9.2009 (Core)")) := by
  have hc : parse_redhat_release (some "CentOS Linux release 7.9.2009 (Core)") =
      some ("CentOS Linux", "7.9.2009 (Core)") := by decide
  refine ⟨fun rh osrel ot r h => ?_, fun rh osrel ot r h1 h2 => ?_,
    fun rh osrel ot h1 h2 => ?_, hc, fun osrel ot => ?_⟩
  · simp [get_os_info, h]
  · simp [get_os_info, h1, h2]
  · simp [get_os_info, h1, h2]
  · simp [get_os_info, hc]

/-- C5 witness: strategy priority at a concrete pair of files. -/
theorem get_os_info_matches_spec_witness :
    get_os_info (some "CentOS Linux release 7.9.2009 (Core)")
      (some "NAME=\"Ubuntu\"\nVERSION_ID=\"22.04\"") none =
      ("CentOS Linux", "7.9.2009 (Core)") :=
  get_os_info_matches_spec.1 _ _ _ _ (by decide)

/-- C7: the logged-in-user count is parsed from the text after the
first `"# users="` marker; a missing utility, an output with no marker
on any line, or unparsable trailing text all yield 0. -/
theorem get_logged_in_user_count_matches_spec :
    get_logged_in_user_count none = 0 ∧
    get_logged_in_user_count (some "7 users logged on, # users=3") = 3 ∧
    get_logged_in_user_count (some "7 users logged on, # users=xyz") = 0 ∧
    (∀ out : String, (∀ l ∈ rustLines out, findSub l "# users=" = none) →
        get_logged_in_user_count (some out) = 0) := by
  refine ⟨rfl, by decide, by decide, fun out h => ?_⟩
  have gen : ∀ ls : List String, (∀ l ∈ ls, findSub l "# users=" = none) →
      ls.findSome? (fun line => (findSub line "# users=").map fun pos => (line, pos)) =
        none := by
    intro ls
    induction ls with
    | nil => intro _; rfl
    | cons l ls ih =>
        intro hm
        have hl := hm l (List.mem_cons_self l ls)
        simp only [List.findSome?_cons, hl, Option.map_none']
        exact ih fun x hx => hm x (List.mem_cons_of_mem l hx)
  simp [get_logged_in_user_count, gen (rustLines out) h]

/-- C7 witness: the quantified failure clause applied to output with no
marker. -/
theorem get_logged_in_user_count_matches_spec_witness :
    get_logged_in_user_count (some "alice pts/0\nbob pts/1") = 0 :=
  get_logged_in_user_count_matches_spec.2.2.2 "alice pts/0\nbob pts/1" (by decide)

/-- C8: the farewell line uses the configured value exactly when it is
present and non-blank after trimming; missing, empty, or
whitespace-only values fall back to the fixed default, while a present
banner is printed even when blank (no analogous check). -/
theorem render_farewell_matches_spec :
    (∀ (cfg : MotdConfig) (s : String), cfg.farewell = some s →
        trimStr s ≠ "" → render_farewell cfg = s) ∧
    (∀ (cfg : MotdConfig) (s : String), cfg.farewell = some s →
        trimStr s = "" → render_farewell cfg = "Have a nice day!") ∧
    (∀ cfg : MotdConfig, cfg.farewell = none →
        render_farewell cfg = "Have a nice day!") ∧
    (∀ (v : Bool) (cfg : MotdConfig) (st : SysState) (t art : String),
        cfg.ascii_art = some art →
          ∃ rest, print_motdyn v cfg st t = "" :: art :: "" :: rest) := by
  refine ⟨fun cfg s h hs => by simp [render_farewell, h, hs],
    fun cfg s h hs => by simp [render_farewell, h, hs],
    fun cfg h => by simp [render_farewell, h],
    fun v cfg st t art h => ?_⟩
  obtain ⟨a, f⟩ := cfg
  simp only [MotdConfig.ascii_art] at h
  subst h
  exact ⟨_, rfl⟩

/-- C8 witness: a whitespace-only farewell falls back to the default,
and a blank banner is still printed. -/
theorem render_farewell_matches_spec_witness :
    render_farewell ⟨none, some "  "⟩ = "Have a nice day!" ∧
    render_farewell ⟨none, some "Bye"⟩ = "Bye" :=
  ⟨render_farewell_matches_spec.2.1 ⟨none, some "  "⟩ "  " rfl (by decide),
   render_farewell_matches_spec.1 ⟨none, some "Bye"⟩ "Bye" rfl (by decide)⟩

/-! ### C6: `parse_cpuinfo` fold lemmas -/

/-- One step of the cpuinfo loop increments the count exactly on
`processor` lines. -/
theorem cpuStep_snd (acc : String × Nat) (l : String) :
    (cpuStep acc l).2 = acc.2 + (if startsW l "processor" then 1 else 0) := by
  by_cases h : startsW l "processor"
  · simp [cpuStep, h]
  · simp only [cpuStep, h, Bool.false_eq_true, if_false, if_neg]
    cases hs : stripPre l "model name" with
    | none => simp
    | some rest =>
        dsimp only
        cases hv : (splitChar ':' rest).get? 1 with
        | none => simp
        | some v => by_cases hb : acc.1 = "Unknown CPU" <;> simp [hb]

/-- One step of the cpuinfo loop never changes a brand that is already
set (≠ sentinel). -/
theorem cpuStep_fst_keep (b : String) (n : Nat) (l : String)
    (hb : b ≠ "Unknown CPU") : (cpuStep (b, n) l).1 = b := by
  by_cases h : startsW l "processor"
  · simp [cpuStep, h]
  · simp only [cpuStep, h, Bool.false_eq_true, if_false, if_neg]
    cases hs : stripPre l "model name" with
    | none => simp
    | some rest =>
        dsimp only
        cases hv : (splitChar ':' rest).get? 1 with
        | none => simp
        | some v => simp [hb]

/-- From the sentinel, one step sets the brand to the line's
`model name` value, if it has one. -/
theorem cpuStep_fst_sentinel (n : Nat) (l : String) :
    (cpuStep ("Unknown CPU", n) l).1 = (cpuLineValue l).getD "Unknown CPU" := by
  by_cases h : startsW l "processor"
  · simp [cpuStep, cpuLineValue, h]
  · simp only [cpuStep, cpuLineValue, h, Bool.false_eq_true, if_false, if_neg]
    cases hs : stripPre l "model name" with
    | none => simp
    | some rest =>
        dsimp only [Option.some_bind]
        cases hv : (splitChar ':' rest).get? 1 with
        | none => simp
        | some v => simp

/-- A set brand survives the whole fold. -/
theorem cpuFold_keep : ∀ (ls : List String) (b : String) (n : Nat),
    b ≠ "Unknown CPU" → (ls.foldl cpuStep (b, n)).1 = b := by
  intro ls
  induction ls with
  | nil => intro b n hb; rfl
  | cons l ls ih =>
      intro b n hb
      rw [List.foldl_cons,
        show cpuStep (b, n) l = ((cpuStep (b, n) l).1, (cpuStep (b, n) l).2) from rfl,
        cpuStep_fst_keep b n l hb]
      exact ih b (cpuStep (b, n) l).2 hb

/-- The count component of the fold counts `processor` lines. -/
theorem cpuFold_snd : ∀ (ls : List String) (b : String) (n : Nat),
    (ls.foldl cpuStep (b, n)).2 =
      n + (ls.filter fun l => startsW l "processor").length := by
  intro ls
  induction ls with
  | nil => intro b n; simp
  | cons l ls ih =>
      intro b n
      rw [List.foldl_cons,
        show cpuStep (b, n) l = ((cpuStep (b, n) l).1, (cpuStep (b, n) l).2) from rfl,
        ih, cpuStep_snd]
      by_cases h : startsW l "processor" <;> simp [h, List.filter_cons] <;> omega

/-- The brand component of the fold, started from the sentinel, is the
first `model name` value distinct from the sentinel. -/
theorem cpuFold_fst : ∀ (ls : List String) (n : Nat),
    (ls.foldl cpuStep ("Unknown CPU", n)).1 =
      (((ls.filterMap cpuLineValue).find? fun v => !(v = "Unknown CPU")).getD
        "Unknown CPU") := by
  intro ls
  induction ls with
  | nil => intro n; rfl
  | cons l ls ih =>
      intro n
      rw [List.foldl_cons,
        show cpuStep ("Unknown CPU", n) l =
          ((cpuStep ("Unknown CPU", n) l).1, (cpuStep ("Unknown CPU", n) l).2) from rfl,
        cpuStep_fst_sentinel]
      cases hv : cpuLineValue l with
      | none => simp only [List.filterMap_cons, hv, Option.getD_none]; exact ih _
      | some v =>
          by_cases hvs : v = "Unknown CPU"
          · subst hvs
            simp only [List.filterMap_cons, hv, Option.getD_some]
            rw [List.find?_cons_of_neg _ (by simp)]
            exact ih _
          · simp only [List.filterMap_cons, hv, Option.getD_some]
            rw [List.find?_cons_of_pos _ (by simp [hvs])]
            simp only [Option.getD_some]
            exact cpuFold_keep ls v _ hvs

/-- C6 counterexample input: the first `model name` value is literally
the sentinel `"Unknown CPU"`, so the loop's `brand == "Unknown CPU"`
guard lets the second value overwrite it. -/
def cpuCounterexampleInput : String :=
  "model name\t: Unknown CPU\nmodel name\t: AMD EPYC 7302"

/-- C6 counterexample: the reported brand is NOT the value of the first
`model name` line — the later value overwrites it. -/
theorem parse_cpuinfo_counterexample :
    cpuFirstModelValue cpuCounterexampleInput = some "Unknown CPU" ∧
    (parse_cpuinfo (some cpuCounterexampleInput)).1 = "AMD EPYC 7302" ∧
    ("AMD EPYC 7302" : String) ≠ "Unknown CPU" := by decide

/-- C6 (amended): the core count is the number of lines beginning with
`"processor"`, and the brand is the first `model name` value *distinct
from the default `"Unknown CPU"`* (a value equal to the default leaves
the brand unchanged, so a later line may still set it); unreadable input
gives `("Unknown CPU", 0)`. -/
theorem parse_cpuinfo_amended :
    (∀ c : String, parse_cpuinfo (some c) = (cpuAmendedBrand c, cpuProcCount c)) ∧
    parse_cpuinfo none = ("Unknown CPU", 0) := by
  refine ⟨fun c => ?_, rfl⟩
  have h1 := cpuFold_fst (rustLines c) 0
  have h2 := cpuFold_snd (rustLines c) "Unknown CPU" 0
  simp only [parse_cpuinfo, cpuAmendedBrand, cpuProcCount]
  refine Prod.ext h1 ?_
  simpa using h2

/-! ### C9: determinism of the report up to the time line -/

/-- C9: for a fixed configuration and system state, the report is a
fixed list of lines in which only the aligned `"Current time (TZ):"`
entry depends on the clock — two runs differ at most in that line. -/
theorem run_motd_deterministic_except_time :
    ∀ (v : Bool) (sys_cfg usr_cfg : Option MotdConfig) (st : SysState),
      ∃ pre post : List String, ∀ t : String,
        run_motd v sys_cfg usr_cfg st t = pre ++ time_line t :: post := by
  intro v sys_cfg usr_cfg st
  show ∃ pre post : List String, ∀ t : String,
    print_motdyn v (merge_config sys_cfg usr_cfg) st t = pre ++ time_line t :: post
  generalize merge_config sys_cfg usr_cfg = cfg
  obtain ⟨a, f⟩ := cfg
  cases a with
  | none =>
      exact ⟨[boldCyan "Welcome!", ""], report_rest v ⟨none, f⟩ st, fun t => rfl⟩
  | some art =>
      exact ⟨["", art, "", boldCyan "Welcome!", ""], report_rest v ⟨some art, f⟩ st,
        fun t => rfl⟩

end Motdyn
